import Mathlib

/-!
Verification development for the rusty-weather sensor node.

The definitions below are a shallow embedding of the two Rust sources:
the firmware (src/firmware/src/bin/main.rs: BMP280 and DHT11 drivers and
their sampling tasks) and the dashboard (src/src/main.rs).  Modelling
conventions:

* Fixed-width machine integers are modelled as Nat/Int with explicit
  two's-complement wrapping (release-mode Rust semantics) wherever an
  operation can overflow; Rust's arithmetic right shift on a signed value
  is flooring division by a power of two, and Rust's signed division
  rounds toward zero (Int.tdiv).
* f32/f64 values whose exact rounding is irrelevant to the claims are
  modelled over the rationals; the transcendental altitude formula
  (powf) is abstracted as a function parameter.
* Hardware and transport effects (pin levels, bus transactions, file
  writes) are supplied by explicit environments listing the outcome of
  each effectful call in program order; fallible calls return Except.
-/

namespace DHT11

/-- Error taxonomy surfaced by the humidity driver: ESP_ERR_TIMEOUT from a
pin-level wait, ESP_ERR_INVALID_CRC from the checksum test, and a pin
write failure propagated by the question-mark operator. -/
inductive Erro where
  | timeout
  | invalidCrc
  | pinFail
deriving DecidableEq, Repr

/-- Environment for one call of DHT11::ler_dados: sets n tells whether the
n-th pin set operation (set_high / set_low, in program order) succeeds;
waits n is the outcome of the n-th esperar_nivel call (none means its
100 microsecond budget elapsed, some d means the awaited level was seen
after d microseconds). -/
structure Env where
  sets : Nat → Bool
  waits : Nat → Option Nat

/-- Model of DHT11::ler_bit, consuming three esperar_nivel outcomes
starting at index n: wait for low, wait for high, then measure the high
pulse; a duration above 40 microseconds decodes as bit 1.  Returns the
bit and the next wait index. -/
def ler_bit (env : Env) (n : Nat) : Except Erro (Bool × Nat) :=
  match env.waits n with
  | none => .error .timeout
  | some _ =>
    match env.waits (n + 1) with
    | none => .error .timeout
    | some _ =>
      match env.waits (n + 2) with
      | none => .error .timeout
      | some duracao => .ok (decide (duracao > 40), n + 3)

/-- Loop body of DHT11::ler_byte with fuel counting the bits still to
read; the source sets bit (7 - i) on iteration i, which is bit fuel - 1
when fuel bits remain. -/
def ler_byte_aux (env : Env) : Nat → Nat → Nat → Except Erro (Nat × Nat)
  | 0, n, byte => .ok (byte, n)
  | fuel + 1, n, byte =>
    match ler_bit env n with
    | .error e => .error e
    | .ok (b, n2) => ler_byte_aux env fuel n2 (if b then byte ||| (1 <<< fuel) else byte)

/-- Model of DHT11::ler_byte: eight bits packed most-significant first. -/
def ler_byte (env : Env) (n : Nat) : Except Erro (Nat × Nat) :=
  ler_byte_aux env 8 n 0

/-- Model of the closure in DHT11::ler_dados that reads the five data
bytes in sequence. -/
def ler_bytes5 (env : Env) (n : Nat) : Except Erro (Nat × Nat × Nat × Nat × Nat) :=
  match ler_byte env n with
  | .error e => .error e
  | .ok (d0, n1) =>
    match ler_byte env n1 with
    | .error e => .error e
    | .ok (d1, n2) =>
      match ler_byte env n2 with
      | .error e => .error e
      | .ok (d2, n3) =>
        match ler_byte env n3 with
        | .error e => .error e
        | .ok (d3, n4) =>
          match ler_byte env n4 with
          | .error e => .error e
          | .ok (d4, _) => .ok (d0, d1, d2, d3, d4)

/-- Reading produced by the humidity driver (DadosDHT11 in the source);
the f32 fields are modelled over the rationals. -/
structure DadosDHT11 where
  temperatura : ℚ
  umidade : ℚ
deriving DecidableEq, Repr

/-- Wrapping u8 addition (u8::wrapping_add). -/
def wadd8 (a b : Nat) : Nat := (a + b) % 256

/-- Checksum-and-convert tail of DHT11::ler_dados (steps 4 and 5 in the
source): the checksum is the u8 wrapping sum of the first four bytes,
compared against the fifth; on a match the bytes decode to humidity and
temperature with one decimal digit each. -/
def decodificar (d0 d1 d2 d3 d4 : Nat) : Except Erro DadosDHT11 :=
  let checksum := wadd8 (wadd8 (wadd8 d0 d1) d2) d3
  if checksum ≠ d4 then .error .invalidCrc
  else
    .ok { temperatura := (d2 : ℚ) + (d3 : ℚ) * (1 / 10),
          umidade := (d0 : ℚ) + (d1 : ℚ) * (1 / 10) }

/-- Model of DHT11::ler_dados.  Interrupts are disabled on entry
(portDISABLE_INTERRUPTS); the Bool component records whether they are
enabled again at the moment the function returns.  The three start-pulse
pin writes propagate a failure with the question-mark operator before
any portENABLE_INTERRUPTS call is reached; the two handshake waits and
every later path re-enable interrupts before returning. -/
def ler_dados (env : Env) : Except Erro DadosDHT11 × Bool :=
  if env.sets 0 then
    if env.sets 1 then
      if env.sets 2 then
        match env.waits 0 with
        | none => (.error .timeout, true)
        | some _ =>
          match env.waits 1 with
          | none => (.error .timeout, true)
          | some _ =>
            let resultado := ler_bytes5 env 2
            match resultado with
            | .error e => (.error e, true)
            | .ok (d0, d1, d2, d3, d4) => (decodificar d0 d1 d2 d3 d4, true)
      else (.error .pinFail, false)
    else (.error .pinFail, false)
  else (.error .pinFail, false)

/-- Environment in which the very first pin write of the start pulse
fails. -/
def envPinFail : Env := { sets := fun _ => false, waits := fun _ => none }

/-- Environment in which every pin write succeeds and every level wait
times out. -/
def envSetsOk : Env := { sets := fun _ => true, waits := fun _ => none }

end DHT11

namespace Dashboard

/-- Payload of one MQTT sensor message (SensorData in src/src/main.rs);
f64 fields modelled over the rationals. -/
structure SensorData where
  temperatura : ℚ
  umidade : ℚ
  pressao : ℚ
deriving DecidableEq, Repr

/-- One history entry: the sensor data plus the arrival-time string. -/
structure Registro where
  dados : SensorData
  horario : String
deriving DecidableEq, Repr

/-- History update performed by the MQTT loop for one incoming message:
push the new record at the back, then, if the length exceeds 10, remove
the element at index 0 (the oldest). -/
def processMessage (history : List Registro) (novo : Registro) : List Registro :=
  let h2 := history ++ [novo]
  if h2.length > 10 then h2.tail else h2

/-- Placeholder record used by handler_dashboard when the history is
empty (the unwrap_or default). -/
def registroVazio : Registro :=
  { dados := { temperatura := 0, umidade := 0, pressao := 0 }, horario := "--:--:--" }

/-- Data interpolated into the page rendered by handler_dashboard: the
current card values and the table rows.  The surrounding constant HTML
text is abstracted away; atual is the record whose fields fill the cards
and the timestamp line, linhas lists the records rendered as table rows,
newest first. -/
structure DashboardView where
  atual : Registro
  linhas : List Registro
deriving DecidableEq, Repr

/-- Model of handler_dashboard: take the last (most recent) record or
the placeholder when the history is empty, and render the history rows
in reverse (newest first). -/
def handler_dashboard (history : List Registro) : DashboardView :=
  { atual := history.getLast?.getD registroVazio,
    linhas := history.reverse }

end Dashboard

namespace Tasks

/-- Consecutive-failure threshold (MAX_ERROS) shared by both tasks. -/
def MAX_ERROS : Nat := 5

/-- Observable outcome of one iteration of the loop in task_bmp280:
the error counter afterwards, whether a reconstruction was attempted,
and whether a fresh driver instance was installed. -/
structure BmpCycleOut where
  contador : Nat
  reinitAttempted : Bool
  reinitialized : Bool
deriving DecidableEq, Repr

/-- One iteration of the loop in task_bmp280.  readOk tells whether
sensor.ler_dados() succeeded this cycle; gravarOk whether the
persistence write gravar_bmp280 succeeded (its failure is only logged);
reinitOk whether BMP280::new succeeds if a reconstruction is attempted.
On a read success the counter is reset no matter what the write did; on
a failure the counter is incremented and, once it reaches MAX_ERROS,
one reconstruction is attempted — the counter is reset only in the Ok
arm of that attempt. -/
def task_bmp280_cycle (contador : Nat) (readOk _gravarOk reinitOk : Bool) : BmpCycleOut :=
  if readOk then
    { contador := 0, reinitAttempted := false, reinitialized := false }
  else
    let c := contador + 1
    if c ≥ MAX_ERROS then
      if reinitOk then { contador := 0, reinitAttempted := true, reinitialized := true }
      else { contador := c, reinitAttempted := true, reinitialized := false }
    else { contador := c, reinitAttempted := false, reinitialized := false }

/-- Observable outcome of one iteration of the loop in task_dht11. -/
structure DhtCycleOut where
  contador : Nat
  recovered : Bool
deriving DecidableEq, Repr

/-- One iteration of the loop in task_dht11: same counting policy, but
the recovery action at the threshold is simply resetting the counter. -/
def task_dht11_cycle (contador : Nat) (readOk _gravarOk : Bool) : DhtCycleOut :=
  if readOk then { contador := 0, recovered := false }
  else
    let c := contador + 1
    if c ≥ MAX_ERROS then { contador := 0, recovered := true }
    else { contador := c, recovered := false }

/-- State of the pressure task after n consecutive failed read cycles
starting from a zero counter, when every attempted reconstruction has
outcome reinitOk. -/
def bmp_after_failures (reinitOk : Bool) : Nat → BmpCycleOut
  | 0 => { contador := 0, reinitAttempted := false, reinitialized := false }
  | n + 1 => task_bmp280_cycle (bmp_after_failures reinitOk n).contador false true reinitOk

/-- State of the humidity task after n consecutive failed read cycles
starting from a zero counter. -/
def dht_after_failures : Nat → DhtCycleOut
  | 0 => { contador := 0, recovered := false }
  | n + 1 => task_dht11_cycle (dht_after_failures n).contador false true

end Tasks

namespace BMP280

/-- Two's-complement wrapping of an unbounded integer to w bits
(release-mode Rust overflow semantics). -/
def wrap (w : Nat) (x : Int) : Int := (x + 2 ^ (w - 1)) % 2 ^ w - 2 ^ (w - 1)

/-- Wrapping to i32. -/
def wrap32 (x : Int) : Int := wrap 32 x

/-- Wrapping to i64. -/
def wrap64 (x : Int) : Int := wrap 64 x

/-- Arithmetic right shift of a signed value already in range: flooring
division by a power of two. -/
def sar (x : Int) (k : Nat) : Int := Int.fdiv x (2 ^ k)

/-- Little-endian u16 from two bytes (u16::from_le_bytes). -/
def u16_from_le (lo hi : Nat) : Nat := lo + 256 * hi

/-- Interpretation of a 16-bit pattern as a signed i16. -/
def i16_of (n : Nat) : Int := if n < 32768 then (n : Int) else (n : Int) - 65536

/-- Little-endian i16 from two bytes (i16::from_le_bytes). -/
def i16_from_le (lo hi : Nat) : Int := i16_of (u16_from_le lo hi)

/-- Calibration coefficients (CalibracaoBMP280): dig_t1 and dig_p1 are
u16, the other ten are i16. -/
structure CalibracaoBMP280 where
  dig_t1 : Nat
  dig_t2 : Int
  dig_t3 : Int
  dig_p1 : Nat
  dig_p2 : Int
  dig_p3 : Int
  dig_p4 : Int
  dig_p5 : Int
  dig_p6 : Int
  dig_p7 : Int
  dig_p8 : Int
  dig_p9 : Int
deriving DecidableEq, Repr

/-- Model of BMP280::ler_calibracao on a 24-byte block (calib i is byte
i of the block read from register 0x88): the exact byte pairs the source
assigns to each field. -/
def ler_calibracao (calib : Nat → Nat) : CalibracaoBMP280 :=
  { dig_t1 := u16_from_le (calib 0) (calib 1)
    dig_t2 := i16_from_le (calib 2) (calib 3)
    dig_t3 := i16_from_le (calib 4) (calib 5)
    dig_p1 := u16_from_le (calib 6) (calib 7)
    dig_p2 := i16_from_le (calib 8) (calib 9)
    dig_p3 := i16_from_le (calib 10) (calib 11)
    dig_p4 := i16_from_le (calib 12) (calib 13)
    dig_p5 := i16_from_le (calib 14) (calib 15)
    dig_p6 := i16_from_le (calib 16) (calib 17)
    dig_p7 := i16_from_le (calib 18) (calib 19)
    dig_p8 := i16_from_le (calib 20) (calib 21)
    dig_p9 := i16_from_le (calib 22) (calib 23) }

/-- Coefficient number k of the calibration block as described by the
spec text: taken little-endian from the consecutive byte pair starting
at byte 2 * k. -/
def coef_le (calib : Nat → Nat) (k : Nat) : Nat :=
  u16_from_le (calib (2 * k)) (calib (2 * k + 1))

/-- Calibration decode written from the spec's words, for comparison
with ler_calibracao: three little-endian temperature coefficients
followed by nine little-endian pressure coefficients, each from
consecutive byte pairs starting at byte 0; T1 and P1 are unsigned
16-bit, T2, T3 and P2 through P9 are signed 16-bit. -/
def ler_calibracao_spec (calib : Nat → Nat) : CalibracaoBMP280 :=
  { dig_t1 := coef_le calib 0
    dig_t2 := i16_of (coef_le calib 1)
    dig_t3 := i16_of (coef_le calib 2)
    dig_p1 := coef_le calib 3
    dig_p2 := i16_of (coef_le calib 4)
    dig_p3 := i16_of (coef_le calib 5)
    dig_p4 := i16_of (coef_le calib 6)
    dig_p5 := i16_of (coef_le calib 7)
    dig_p6 := i16_of (coef_le calib 8)
    dig_p7 := i16_of (coef_le calib 9)
    dig_p8 := i16_of (coef_le calib 10)
    dig_p9 := i16_of (coef_le calib 11) }

/-- Model of BMP280::compensar_temperatura: i32 fixed-point pipeline;
returns the temperature in degrees together with the freshly computed
t_fine (the source overwrites self.t_fine with it). -/
def compensar_temperatura (cal : CalibracaoBMP280) (adc_t : Int) : ℚ × Int :=
  let var1 :=
    sar (wrap32 (wrap32 (sar adc_t 3 - wrap32 ((cal.dig_t1 : Int) * 2)) * cal.dig_t2)) 11
  let var2 :=
    sar (wrap32 (sar (wrap32 (wrap32 (sar adc_t 4 - (cal.dig_t1 : Int)) *
      wrap32 (sar adc_t 4 - (cal.dig_t1 : Int)))) 12 * cal.dig_t3)) 14
  let t_fine := wrap32 (var1 + var2)
  let t := sar (wrap32 (wrap32 (t_fine * 5) + 128)) 8
  ((t : ℚ) / 100, t_fine)

/-- Intermediate 64-bit denominator of BMP280::compensar_pressao: the
value held by var1 at the zero test on line 213 of the source. -/
def pressao_denominador (cal : CalibracaoBMP280) (t_fine : Int) : Int :=
  let var1 := wrap64 (t_fine - 128000)
  let var1b := wrap64 (sar (wrap64 (wrap64 (var1 * var1) * cal.dig_p3)) 8 +
    wrap64 (wrap64 (var1 * cal.dig_p2) * 2 ^ 12))
  sar (wrap64 (wrap64 (2 ^ 47 + var1b) * (cal.dig_p1 : Int))) 33

/-- Model of BMP280::compensar_pressao: i64 fixed-point pipeline with
the zero-denominator guard; the only division of the pipeline sits in
the else branch and divides by the tested denominator. -/
def compensar_pressao (cal : CalibracaoBMP280) (t_fine : Int) (adc_p : Int) : ℚ :=
  let var1 := wrap64 (t_fine - 128000)
  let var2 := wrap64 (wrap64 (var1 * var1) * cal.dig_p6)
  let var2b := wrap64 (var2 + wrap64 (wrap64 (var1 * cal.dig_p5) * 2 ^ 17))
  let var2c := wrap64 (var2b + wrap64 (cal.dig_p4 * 2 ^ 35))
  let var1c := pressao_denominador cal t_fine
  if var1c = 0 then 0
  else
    let p := wrap64 (1048576 - adc_p)
    let p2 := Int.tdiv (wrap64 (wrap64 (wrap64 (p * 2 ^ 31) - var2c) * 3125)) var1c
    let var1d := sar (wrap64 (wrap64 (cal.dig_p9 * sar p2 13) * sar p2 13)) 25
    let var2d := sar (wrap64 (cal.dig_p8 * p2)) 19
    let p3 := wrap64 (sar (wrap64 (wrap64 (p2 + var1d) + var2d)) 8 +
      wrap64 (cal.dig_p7 * 2 ^ 4))
    (p3 : ℚ) / 256

/-- Unpack of one 3-byte register group into a 20-bit raw value, exactly
as the source writes it: msb shifted left 12, or lsb shifted left 4, or
xlsb shifted right 4. -/
def unpack3 (msb lsb xlsb : Nat) : Nat := (msb <<< 12) ||| (lsb <<< 4) ||| (xlsb >>> 4)

/-- Raw pressure from the 6-byte burst buffer: bytes 0..2. -/
def adc_p_of (buffer : Nat → Nat) : Nat := unpack3 (buffer 0) (buffer 1) (buffer 2)

/-- Raw temperature from the 6-byte burst buffer: bytes 3..5. -/
def adc_t_of (buffer : Nat → Nat) : Nat := unpack3 (buffer 3) (buffer 4) (buffer 5)

/-- Transport failures surfaced by the pressure driver's read path. -/
inductive Erro where
  | transport
deriving DecidableEq, Repr

/-- Environment for one call of BMP280::ler_dados: status n is the
outcome of the n-th read of the status register 0xF3 (none means the
bus transaction failed, some b means byte b was read); burst is the
outcome of the burst read of the six data registers starting at 0xF7. -/
structure Env where
  status : Nat → Option Nat
  burst : Option (Nat → Nat)

/-- Whether a status-register read outcome reports the measuring bit
(bit 3) still set. -/
def statusBusy (o : Option Nat) : Bool :=
  match o with
  | some b => decide (b &&& 8 ≠ 0)
  | none => false

/-- Status-poll loop of BMP280::ler_dados with fuel iterations left and
n status reads already performed: read the status register, propagate a
transport failure, stop early once bit 3 is clear, and give up silently
when the fuel is exhausted.  The second component counts the status
reads performed in total. -/
def pollStatus (env : Env) : Nat → Nat → Except Erro Unit × Nat
  | 0, n => (.ok (), n)
  | fuel + 1, n =>
    match env.status n with
    | none => (.error .transport, n + 1)
    | some b => if b &&& 8 = 0 then (.ok (), n + 1) else pollStatus env fuel (n + 1)

/-- Reading produced by the pressure driver (DadosBMP280). -/
structure DadosBMP280 where
  temperatura : ℚ
  pressao : ℚ
  altitude : ℚ

/-- Burst-phase tail of BMP280::ler_dados: unpack the two raw values,
compensate temperature (producing t_fine), compensate pressure with
that t_fine, convert to hectopascal and derive the altitude.  altFn
abstracts calcular_altitude, whose f32 powf has no exact rational
counterpart.  Also returns the t_fine stored back into the driver. -/
def processar_burst (altFn : ℚ → ℚ) (cal : CalibracaoBMP280) (buffer : Nat → Nat) :
    DadosBMP280 × Int :=
  let adc_p := (adc_p_of buffer : Int)
  let adc_t := (adc_t_of buffer : Int)
  let tt := compensar_temperatura cal adc_t
  let pressao_pa := compensar_pressao cal tt.2 adc_p
  let pressao_hpa := pressao_pa / 100
  ({ temperatura := tt.1, pressao := pressao_hpa, altitude := altFn pressao_hpa }, tt.2)

/-- Model of BMP280::ler_dados: poll the status register at most 10
times, then perform the burst read and the compensation pipeline.  The
second component is the number of status-register reads performed. -/
def ler_dados (altFn : ℚ → ℚ) (cal : CalibracaoBMP280) (env : Env) :
    Except Erro DadosBMP280 × Nat :=
  let poll := pollStatus env 10 0
  match poll.1 with
  | .error e => (.error e, poll.2)
  | .ok _ =>
    match env.burst with
    | none => (.error .transport, poll.2)
    | some buffer => (.ok (processar_burst altFn cal buffer).1, poll.2)

/-- Concrete all-zero calibration block (every coefficient zero). -/
def calZero : CalibracaoBMP280 :=
  { dig_t1 := 0, dig_t2 := 0, dig_t3 := 0, dig_p1 := 0, dig_p2 := 0, dig_p3 := 0
    dig_p4 := 0, dig_p5 := 0, dig_p6 := 0, dig_p7 := 0, dig_p8 := 0, dig_p9 := 0 }

/-- Environment whose status register always reads 8 (measuring bit
set) and whose burst read returns six zero bytes. -/
def envBusy : Env := { status := fun _ => some 8, burst := some fun _ => 0 }

end BMP280

/-- C10: on an empty history, handler_dashboard still succeeds and
renders the placeholder current values — temperature 0, humidity 0,
pressure 0, timestamp string "--:--:--" — together with an empty
history table. -/
theorem C10_empty_history_placeholder :
    Dashboard.handler_dashboard [] =
      { atual := { dados := { temperatura := 0, umidade := 0, pressao := 0 },
                   horario := "--:--:--" },
        linhas := [] } := rfl

/-- C8: in any cycle in which the sensor read succeeds, both tasks reset
the failure counter to 0 and trigger no recovery, and the cycle outcome
does not depend on whether the persistence write succeeded. -/
theorem C8_write_failure_never_counts (c : Nat) (g g2 r : Bool) :
    (Tasks.task_bmp280_cycle c true g r).contador = 0 ∧
    (Tasks.task_bmp280_cycle c true g r).reinitAttempted = false ∧
    Tasks.task_bmp280_cycle c true g r = Tasks.task_bmp280_cycle c true g2 r ∧
    (Tasks.task_dht11_cycle c true g).contador = 0 ∧
    (Tasks.task_dht11_cycle c true g).recovered = false ∧
    Tasks.task_dht11_cycle c true g = Tasks.task_dht11_cycle c true g2 :=
  ⟨rfl, rfl, rfl, rfl, rfl, rfl⟩

/-- C1 fails as stated: after the 5th consecutive read failure the
pressure task does attempt one reconstruction, but when that
reconstruction fails the error counter is not reset to 0 — it stays at
5 (only the Ok arm of the reconstruction resets it). -/
theorem C1_counterexample :
    (Tasks.bmp_after_failures false 5).reinitAttempted = true ∧
    (Tasks.bmp_after_failures false 5).contador = 5 := by decide

/-- C1 (amended): starting from a zero counter, consecutive failures 1
through 4 trigger no recovery in either task and leave the counter at
the failure count; the 5th consecutive failure triggers exactly one
recovery attempt — the pressure task reconstructs the driver and resets
the counter to 0 only when the reconstruction succeeds, keeping it at 5
when it fails, while the humidity task simply resets its counter to
0. -/
theorem C1_fault_threshold (reinitOk : Bool) :
    (∀ k, 1 ≤ k → k ≤ 4 →
      (Tasks.bmp_after_failures reinitOk k).reinitAttempted = false ∧
      (Tasks.bmp_after_failures reinitOk k).contador = k ∧
      (Tasks.dht_after_failures k).recovered = false ∧
      (Tasks.dht_after_failures k).contador = k) ∧
    (Tasks.bmp_after_failures reinitOk 5).reinitAttempted = true ∧
    (Tasks.bmp_after_failures reinitOk 5).contador = (if reinitOk then 0 else 5) ∧
    (Tasks.dht_after_failures 5).recovered = true ∧
    (Tasks.dht_after_failures 5).contador = 0 := by
  refine ⟨fun k h1 h4 => ?_, ?_, ?_, ?_, ?_⟩
  · interval_cases k <;> cases reinitOk <;> exact ⟨by decide, by decide, by decide, by decide⟩
  all_goals cases reinitOk <;> decide

/-- Closed instance of the amended fault-threshold theorem at four
consecutive failures with a failing reconstruction. -/
theorem C1_fault_threshold_witness :
    (Tasks.bmp_after_failures false 4).reinitAttempted = false ∧
    (Tasks.bmp_after_failures false 4).contador = 4 ∧
    (Tasks.dht_after_failures 4).recovered = false ∧
    (Tasks.dht_after_failures 4).contador = 4 :=
  (C1_fault_threshold false).1 4 (by decide) (by decide)

/-- C4: the calibration decode of the source agrees, on every 24-byte
block, with the layout the spec describes — twelve little-endian
coefficients from consecutive byte pairs starting at byte 0, T1 and P1
unsigned and the ten others signed. -/
theorem C4_calibracao_layout (calib : Nat → Nat) :
    BMP280.ler_calibracao calib = BMP280.ler_calibracao_spec calib := rfl

/-- C3: for a 5-byte payload whose fifth byte equals the wraparound sum
of the first four modulo 256, the decode succeeds with humidity
d0 + d1 / 10 and temperature d2 + d3 / 10; for every other fifth byte it
fails with the checksum error. -/
theorem C3_checksum (d0 d1 d2 d3 d4 : Nat)
    (hb0 : d0 < 256) (hb1 : d1 < 256) (hb2 : d2 < 256) (hb3 : d3 < 256) (hb4 : d4 < 256) :
    (d4 = (d0 + d1 + d2 + d3) % 256 →
      DHT11.decodificar d0 d1 d2 d3 d4 =
        .ok { temperatura := (d2 : ℚ) + (d3 : ℚ) * (1 / 10),
              umidade := (d0 : ℚ) + (d1 : ℚ) * (1 / 10) }) ∧
    (d4 ≠ (d0 + d1 + d2 + d3) % 256 →
      DHT11.decodificar d0 d1 d2 d3 d4 = .error .invalidCrc) := by
  have hsum : DHT11.wadd8 (DHT11.wadd8 (DHT11.wadd8 d0 d1) d2) d3
      = (d0 + d1 + d2 + d3) % 256 := by
    unfold DHT11.wadd8
    omega
  constructor
  · intro h
    unfold DHT11.decodificar
    rw [hsum, ← h]
    simp
  · intro h
    unfold DHT11.decodificar
    rw [hsum]
    simp [Ne.symm h]

/-- Closed instance of the checksum theorem: payload 1, 2, 3, 4 with
correct checksum 10 decodes, and with checksum 9 it is rejected. -/
theorem C3_checksum_witness :
    DHT11.decodificar 1 2 3 4 10 =
      .ok { temperatura := (3 : ℚ) + (4 : ℚ) * (1 / 10),
            umidade := (1 : ℚ) + (2 : ℚ) * (1 / 10) } ∧
    DHT11.decodificar 1 2 3 4 9 = .error .invalidCrc :=
  ⟨(C3_checksum 1 2 3 4 10 (by decide) (by decide) (by decide) (by decide)
      (by decide)).1 (by decide),
   (C3_checksum 1 2 3 4 9 (by decide) (by decide) (by decide) (by decide)
      (by decide)).2 (by decide)⟩

/-- C9: starting from the empty history, the list never exceeds 10
records; one processing step appends the new record at the back and,
exactly when the list was full, removes the oldest (front) record, so
arrival order is preserved. -/
theorem C9_history_bounded :
    (∀ msgs : List Dashboard.Registro,
      (msgs.foldl Dashboard.processMessage []).length ≤ 10) ∧
    (∀ (h : List Dashboard.Registro) (r : Dashboard.Registro), h.length ≤ 10 →
      (Dashboard.processMessage h r).length ≤ 10 ∧
      (h.length < 10 → Dashboard.processMessage h r = h ++ [r]) ∧
      (h.length = 10 → Dashboard.processMessage h r = h.tail ++ [r])) := by
  have step : ∀ (h : List Dashboard.Registro) (r : Dashboard.Registro), h.length ≤ 10 →
      (Dashboard.processMessage h r).length ≤ 10 ∧
      (h.length < 10 → Dashboard.processMessage h r = h ++ [r]) ∧
      (h.length = 10 → Dashboard.processMessage h r = h.tail ++ [r]) := by
    intro h r hlen
    simp only [Dashboard.processMessage]
    refine ⟨?_, fun hlt => ?_, fun heq => ?_⟩
    · by_cases hc : (h ++ [r]).length > 10
      · rw [if_pos hc]
        simp only [List.length_tail, List.length_append, List.length_cons, List.length_nil]
        omega
      · rw [if_neg hc]
        simp only [List.length_append, List.length_cons, List.length_nil] at hc ⊢
        omega
    · rw [if_neg (by
        simp only [List.length_append, List.length_cons, List.length_nil]
        omega)]
    · rw [if_pos (by simp [heq])]
      cases h with
      | nil => simp at heq
      | cons a t => rfl
  refine ⟨fun msgs => ?_, step⟩
  have inv : ∀ (msgs : List Dashboard.Registro) (h : List Dashboard.Registro),
      h.length ≤ 10 → (msgs.foldl Dashboard.processMessage h).length ≤ 10 := by
    intro msgs
    induction msgs with
    | nil => intro h hh; simpa using hh
    | cons m rest ih =>
      intro h hh
      exact ih _ ((step h m hh).1)
  exact inv msgs [] (by simp)

/-- Closed instance of the history-bound theorem at a one-element
history. -/
theorem C9_history_bounded_witness :
    Dashboard.processMessage [Dashboard.registroVazio] Dashboard.registroVazio =
      [Dashboard.registroVazio, Dashboard.registroVazio] :=
  (C9_history_bounded.2 [Dashboard.registroVazio] Dashboard.registroVazio
    (by decide)).2.1 (by decide)

/-- C2 fails as stated: when the first start-pulse pin write fails, the
error propagates out of ler_dados while preemption is still disabled. -/
theorem C2_counterexample :
    (DHT11.ler_dados DHT11.envPinFail).1 = .error .pinFail ∧
    (DHT11.ler_dados DHT11.envPinFail).2 = false := ⟨rfl, rfl⟩

/-- C2 (amended): whenever the three start-pulse pin writes succeed,
ler_dados re-enables interrupts before it returns on every exit path —
success, handshake timeout, mid-decode bit timeout and checksum
failure; only a failing start-pulse pin write escapes with preemption
still disabled. -/
theorem C2_interrupts_restored (env : DHT11.Env)
    (h0 : env.sets 0 = true) (h1 : env.sets 1 = true) (h2 : env.sets 2 = true) :
    (DHT11.ler_dados env).2 = true := by
  simp only [DHT11.ler_dados, h0, h1, h2, if_true]
  cases env.waits 0 with
  | none => rfl
  | some d =>
    cases env.waits 1 with
    | none => rfl
    | some d2 =>
      cases DHT11.ler_bytes5 env 2 with
      | error e => rfl
      | ok t =>
        obtain ⟨a, b, c, dd, e⟩ := t
        rfl

/-- Closed instance of the interrupt-restoration theorem in an
environment where every pin write succeeds and the handshake times
out. -/
theorem C2_interrupts_restored_witness :
    (DHT11.ler_dados DHT11.envSetsOk).2 = true :=
  C2_interrupts_restored DHT11.envSetsOk rfl rfl rfl

/-- C5: whenever the intermediate 64-bit denominator of the pressure
compensation evaluates to zero, the function returns 0 without reaching
the division (the pipeline's only division sits in the branch where the
denominator was tested nonzero). -/
theorem C5_denominador_zero (cal : BMP280.CalibracaoBMP280) (t_fine adc_p : Int)
    (h : BMP280.pressao_denominador cal t_fine = 0) :
    BMP280.compensar_pressao cal t_fine adc_p = 0 := by
  simp [BMP280.compensar_pressao, h]

/-- Closed instance of the zero-denominator guard at the all-zero
calibration block (P1 = 0 forces the denominator to 0). -/
theorem C5_denominador_zero_witness :
    BMP280.compensar_pressao BMP280.calZero 0 0 = 0 :=
  C5_denominador_zero BMP280.calZero 0 0 (by decide)

/-- Bit ranges 12..19, 4..11 and 0..3 are disjoint, so the two ors of
the unpack are plain additions. -/
theorem unpack3_eq_add (msb lsb xlsb : Nat) (h2 : lsb < 256) (h3 : xlsb < 256) :
    BMP280.unpack3 msb lsb xlsb = msb * 4096 + lsb * 16 + xlsb / 16 := by
  have e1 : msb <<< 12 = 2 ^ 12 * msb := by rw [Nat.shiftLeft_eq]; ring
  have e2 : lsb <<< 4 = 2 ^ 4 * lsb := by rw [Nat.shiftLeft_eq]; ring
  have e3 : xlsb >>> 4 = xlsb / 16 := by rw [Nat.shiftRight_eq_div_pow]
  have h5 : 2 ^ 4 * lsb < 2 ^ 12 := by norm_num; omega
  have h4 : xlsb / 16 < 2 ^ 4 := by norm_num; omega
  have or1 : 2 ^ 12 * msb ||| 2 ^ 4 * lsb = 2 ^ 12 * msb + 2 ^ 4 * lsb :=
    (Nat.mul_add_lt_is_or h5 msb).symm
  have rearr : 2 ^ 12 * msb + 2 ^ 4 * lsb = 2 ^ 4 * (2 ^ 8 * msb + lsb) := by ring
  have or2 : 2 ^ 4 * (2 ^ 8 * msb + lsb) ||| xlsb / 16
      = 2 ^ 4 * (2 ^ 8 * msb + lsb) + xlsb / 16 :=
    (Nat.mul_add_lt_is_or h4 (2 ^ 8 * msb + lsb)).symm
  unfold BMP280.unpack3
  rw [e1, e2, e3, or1, rearr, or2]
  ring

/-- C6: on a 6-byte burst buffer, bytes 0..2 unpack to the raw pressure
and bytes 3..5 to the raw temperature, each equal to
msb * 2^12 + lsb * 2^4 + xlsb / 2^4 and below 2^20. -/
theorem C6_burst_unpack (buffer : Nat → Nat) (hb : ∀ i, i < 6 → buffer i < 256) :
    BMP280.adc_p_of buffer = buffer 0 * 4096 + buffer 1 * 16 + buffer 2 / 16 ∧
    BMP280.adc_p_of buffer < 2 ^ 20 ∧
    BMP280.adc_t_of buffer = buffer 3 * 4096 + buffer 4 * 16 + buffer 5 / 16 ∧
    BMP280.adc_t_of buffer < 2 ^ 20 := by
  have h0 := hb 0 (by omega)
  have h1 := hb 1 (by omega)
  have h2 := hb 2 (by omega)
  have h3 := hb 3 (by omega)
  have h4 := hb 4 (by omega)
  have h5 := hb 5 (by omega)
  have ep := unpack3_eq_add (buffer 0) (buffer 1) (buffer 2) h1 h2
  have et := unpack3_eq_add (buffer 3) (buffer 4) (buffer 5) h4 h5
  refine ⟨ep, ?_, et, ?_⟩
  · rw [BMP280.adc_p_of, ep]
    norm_num
    omega
  · rw [BMP280.adc_t_of, et]
    norm_num
    omega

/-- Closed instance of the burst-unpack theorem on the buffer with byte
i equal to 16 * i. -/
theorem C6_burst_unpack_witness :
    BMP280.adc_p_of (fun i => 16 * i) = 0 * 4096 + 16 * 16 + 32 / 16 ∧
    BMP280.adc_p_of (fun i => 16 * i) < 2 ^ 20 ∧
    BMP280.adc_t_of (fun i => 16 * i) = 48 * 4096 + 64 * 16 + 80 / 16 ∧
    BMP280.adc_t_of (fun i => 16 * i) < 2 ^ 20 :=
  C6_burst_unpack (fun i => 16 * i) (by intro i hi; interval_cases i <;> decide)

/-- The status poll performs at most fuel reads beyond the n already
counted. -/
theorem pollStatus_count_le (env : BMP280.Env) :
    ∀ (fuel n : Nat), (BMP280.pollStatus env fuel n).2 ≤ n + fuel := by
  intro fuel
  induction fuel with
  | zero =>
    intro n
    simp [BMP280.pollStatus]
  | succ f ih =>
    intro n
    unfold BMP280.pollStatus
    cases h : env.status n with
    | none =>
      show n + 1 ≤ n + (f + 1)
      omega
    | some b =>
      by_cases hb : b &&& 8 = 0
      · simp only [if_pos hb]
        show n + 1 ≤ n + (f + 1)
        omega
      · simp only [if_neg hb]
        have := ih (n + 1)
        omega

/-- When every status read up to the fuel bound reports the measuring
bit set, the poll consumes all its fuel and gives up with Ok. -/
theorem pollStatus_busy (env : BMP280.Env) :
    ∀ (fuel n : Nat), (∀ i, i < fuel → BMP280.statusBusy (env.status (n + i)) = true) →
      BMP280.pollStatus env fuel n = (.ok (), n + fuel) := by
  intro fuel
  induction fuel with
  | zero =>
    intro n _
    simp [BMP280.pollStatus]
  | succ f ih =>
    intro n hbusy
    have h0 : BMP280.statusBusy (env.status n) = true := by
      have := hbusy 0 (by omega)
      simpa using this
    unfold BMP280.pollStatus
    cases h : env.status n with
    | none => rw [h] at h0; simp [BMP280.statusBusy] at h0
    | some b =>
      rw [h] at h0
      have hb : ¬ (b &&& 8 = 0) := by
        simp [BMP280.statusBusy] at h0
        exact h0
      simp only [if_neg hb]
      have step : ∀ i, i < f → BMP280.statusBusy (env.status (n + 1 + i)) = true := by
        intro i hi
        have := hbusy (i + 1) (by omega)
        have e : n + (i + 1) = n + 1 + i := by omega
        rwa [e] at this
      rw [ih (n + 1) step]
      have e2 : n + 1 + f = n + (f + 1) := by omega
      rw [e2]

/-- When the k-th status read fails on the bus after k busy reads, the
poll surfaces the transport error. -/
theorem pollStatus_err (env : BMP280.Env) :
    ∀ (fuel k n : Nat), k < fuel → env.status (n + k) = none →
      (∀ j, j < k → BMP280.statusBusy (env.status (n + j)) = true) →
      (BMP280.pollStatus env fuel n).1 = .error .transport := by
  intro fuel
  induction fuel with
  | zero =>
    intro k n hk
    omega
  | succ f ih =>
    intro k n hk hnone hbusy
    unfold BMP280.pollStatus
    cases k with
    | zero =>
      have hn : env.status n = none := by simpa using hnone
      rw [hn]
    | succ k2 =>
      have h0 : BMP280.statusBusy (env.status n) = true := by
        have := hbusy 0 (by omega)
        simpa using this
      cases h : env.status n with
      | none =>
        simp [h, BMP280.statusBusy] at h0
      | some b =>
        rw [h] at h0
        have hb : ¬ (b &&& 8 = 0) := by
          simp [BMP280.statusBusy] at h0
          exact h0
        simp only [if_neg hb]
        have hnone2 : env.status (n + 1 + k2) = none := by
          have e : n + 1 + k2 = n + (k2 + 1) := by omega
          rwa [e]
        exact ih k2 (n + 1) (by omega) hnone2 (fun j hj => by
          have := hbusy (j + 1) (by omega)
          have e : n + (j + 1) = n + 1 + j := by omega
          rwa [e] at this)

/-- C7: every call of the pressure driver's read polls the status
register at most 10 times; when all 10 reads report the measuring bit
still set, the read proceeds to the burst anyway — with a successful
burst it returns the compensated reading and no error — and only a
transport failure of a status-register read itself propagates as an
error from the polling phase. -/
theorem C7_status_poll (altFn : ℚ → ℚ) (cal : BMP280.CalibracaoBMP280) (env : BMP280.Env) :
    (BMP280.ler_dados altFn cal env).2 ≤ 10 ∧
    ((∀ i, i < 10 → BMP280.statusBusy (env.status i) = true) →
      (BMP280.ler_dados altFn cal env).2 = 10 ∧
      ∀ buffer, env.burst = some buffer →
        (BMP280.ler_dados altFn cal env).1 =
          .ok (BMP280.processar_burst altFn cal buffer).1) ∧
    (∀ k, k < 10 → env.status k = none →
      (∀ j, j < k → BMP280.statusBusy (env.status j) = true) →
      (BMP280.ler_dados altFn cal env).1 = .error .transport) := by
  refine ⟨?_, fun hbusy => ?_, fun k hk hnone hb => ?_⟩
  · have hc := pollStatus_count_le env 10 0
    simp only [BMP280.ler_dados]
    rcases hpoll : BMP280.pollStatus env 10 0 with ⟨st, cnt⟩
    rw [hpoll] at hc
    simp only at hc
    cases st with
    | error e => simpa using hc
    | ok u =>
      cases henv : env.burst with
      | none => simpa using hc
      | some buffer => simpa using hc
  · have hfull : BMP280.pollStatus env 10 0 = (.ok (), 0 + 10) :=
      pollStatus_busy env 10 0 (fun i hi => by simpa using hbusy i hi)
    constructor
    · simp only [BMP280.ler_dados, hfull]
      cases henv : env.burst <;> simp
    · intro buffer hbuf
      simp [BMP280.ler_dados, hfull, hbuf]
  · have herr : (BMP280.pollStatus env 10 0).1 = .error .transport :=
      pollStatus_err env 10 k 0 hk (by simpa using hnone) (fun j hj => by simpa using hb j hj)
    simp only [BMP280.ler_dados]
    rcases hpoll : BMP280.pollStatus env 10 0 with ⟨st, cnt⟩
    rw [hpoll] at herr
    simp only at herr
    rw [herr]

/-- Closed instance of the polling theorem in the always-busy
environment with a successful all-zero burst. -/
theorem C7_status_poll_witness :
    (BMP280.ler_dados (fun _ => 0) BMP280.calZero BMP280.envBusy).2 = 10 ∧
    (BMP280.ler_dados (fun _ => 0) BMP280.calZero BMP280.envBusy).1 =
      .ok (BMP280.processar_burst (fun _ => 0) BMP280.calZero (fun _ => 0)).1 := by
  have h := (C7_status_poll (fun _ => 0) BMP280.calZero BMP280.envBusy).2.1
    (fun i _ => rfl)
  exact ⟨h.1, h.2 (fun _ => 0) rfl⟩
